import Mathlib

/-!
Verification of the mise device directory and configuration transaction layer.

The Python sources embedded here are:
* `src/menu.py` — the model enumeration, record schemas and identity parsing;
* `src/api_handler.py` — the get/put/post configuration transactions;
* `src/address_api_handler.py` — the get/put address transactions.

The document store is modelled as explicit state: the "devices" collection is a
list of device documents, the "config" collection is an association list keyed
by generated document identifiers (Firestore's opaque generated ids are
modelled by a counter rendered as a natural-number key).
-/

namespace Mise

/-- Closed model enumeration, from `class Model` in src/menu.py. -/
inductive Model where
  | IchibuV1
  | IchibuV2
  | LibraV0
deriving DecidableEq, Repr

/-- Lookup of a model tag by its string value, embedding Python's `Model(model_str)`
(which raises `ValueError` on a non-member, here `none`). -/
def Model.ofString? (s : String) : Option Model :=
  if s = "IchibuV1" then some Model.IchibuV1
  else if s = "IchibuV2" then some Model.IchibuV2
  else if s = "LibraV0" then some Model.LibraV0
  else none

/-- Modelled from the spec: the single internal exact-duration representation
("seconds + nanosecond remainder, not lossy floating point", §4.2).  The menu
module variant carrying duration fields is imported by src/api_handler.py but
is missing from src/ (src/menu.py is an older revision without durations). -/
structure Duration where
  secs : Nat
  nanos : Nat
deriving DecidableEq, Repr

/-- Modelled from the spec: the store's "plain floating-point seconds" duration
encoding (§4.2), modelled as an exact (unnormalized) fraction of seconds —
numerator over denominator — so the codec laws can be stated without
floating-point rounding. -/
structure StoreSeconds where
  num : Int
  den : Nat
deriving DecidableEq, Repr

/-- Value of a stored seconds fraction as a rational number. -/
def StoreSeconds.toRat (q : StoreSeconds) : ℚ :=
  (q.num : ℚ) / (q.den : ℚ)

/-- Modelled from the spec: encoding of a duration into the document-store
seconds representation (the fraction `totalNanoseconds / 10^9`). -/
def Duration.toStoreSeconds (d : Duration) : StoreSeconds :=
  ⟨(d.secs : Int) * 1000000000 + (d.nanos : Int), 1000000000⟩

/-- Modelled from the spec: decoding of the store's seconds encoding back into
the internal exact representation — the duration of `⌊q * 10^9⌋` nanoseconds —
rejecting negative durations (invariant I3, §3) and degenerate fractions. -/
def durationOfStoreSeconds (q : StoreSeconds) : Option Duration :=
  if q.num < 0 ∨ q.den = 0 then none
  else
    let totalNanos := (q.num.toNat * 1000000000) / q.den
    some ⟨totalNanos / 1000000000, totalNanos % 1000000000⟩

/-- Modelled from the spec: the structured external-client duration encoding
`\x7bsecs, nanos\x7d` (§4.2; the test suite in src/test_api_handler.py shows the
emitted keys `secs`/`nanos`). -/
structure ClientDuration where
  secs : Nat
  nanos : Nat
deriving DecidableEq, Repr

/-- Modelled from the spec: emitting the structured client encoding from the
internal representation. -/
def Duration.toClient (d : Duration) : ClientDuration :=
  ⟨d.secs, d.nanos⟩

/-- Modelled from the spec: accepting the structured client encoding on input
and normalizing it to the internal representation. -/
def durationOfClient (c : ClientDuration) : Duration :=
  ⟨c.secs, c.nanos⟩

/-- Total length of a duration in nanoseconds, used to state tolerance bounds. -/
def Duration.totalNanos (d : Duration) : Nat :=
  d.secs * 1000000000 + d.nanos

/-- Modelled from the spec: the internal Configuration record.  The first six
fields appear in `class Config` of src/menu.py; the duration fields and the
`max_noise`/`buffer_length` fields are exercised by src/test_api_handler.py but
their schema module is missing from src/. -/
structure Config where
  gain : ℚ
  ingredient : String
  load_cell_id : Int
  location : String
  offset : ℚ
  phidget_id : Int
  heartbeat_period : Duration
  phidget_sample_period : Duration
  max_noise : ℚ
  buffer_length : Int
deriving DecidableEq, Repr

/-- Modelled from the spec: the Configuration record as stored in the "config"
collection — camel-cased field names and durations as floating-point seconds
(cf. the expected Firestore payload in src/test_api_handler.py). -/
structure StoredConfig where
  gain : ℚ
  ingredient : String
  loadCellId : Int
  location : String
  offset : ℚ
  phidgetId : Int
  heartbeatPeriod : StoreSeconds
  phidgetSamplePeriod : StoreSeconds
  maxNoise : ℚ
  bufferLength : Int
deriving DecidableEq, Repr

/-- Modelled from the spec: the Configuration record as emitted to external
clients — snake-cased field names and structured durations (cf. the expected
client JSON in src/test_api_handler.py). -/
structure ClientConfig where
  gain : ℚ
  ingredient : String
  load_cell_id : Int
  location : String
  offset : ℚ
  phidget_id : Int
  heartbeat_period : ClientDuration
  phidget_sample_period : ClientDuration
  max_noise : ℚ
  buffer_length : Int
deriving DecidableEq, Repr

/-- Embeds `Config.model_dump(by_alias=True)`: the store-facing serialization,
durations rendered as floating-point seconds. -/
def Config.toStoreDict (c : Config) : StoredConfig :=
  { gain := c.gain
    ingredient := c.ingredient
    loadCellId := c.load_cell_id
    location := c.location
    offset := c.offset
    phidgetId := c.phidget_id
    heartbeatPeriod := c.heartbeat_period.toStoreSeconds
    phidgetSamplePeriod := c.phidget_sample_period.toStoreSeconds
    maxNoise := c.max_noise
    bufferLength := c.buffer_length }

/-- Embeds `Config.model_validate` applied to a stored document: validation of
the store representation into the internal representation (failing when a
duration field does not decode, e.g. is negative). -/
def configOfStoreDict (s : StoredConfig) : Option Config :=
  match durationOfStoreSeconds s.heartbeatPeriod, durationOfStoreSeconds s.phidgetSamplePeriod with
  | some h, some p =>
      some { gain := s.gain
             ingredient := s.ingredient
             load_cell_id := s.loadCellId
             location := s.location
             offset := s.offset
             phidget_id := s.phidgetId
             heartbeat_period := h
             phidget_sample_period := p
             max_noise := s.maxNoise
             buffer_length := s.bufferLength }
  | _, _ => none

/-- Embeds `Config.to_client_dict`: the client-facing serialization with
structured durations. -/
def Config.toClientDict (c : Config) : ClientConfig :=
  { gain := c.gain
    ingredient := c.ingredient
    load_cell_id := c.load_cell_id
    location := c.location
    offset := c.offset
    phidget_id := c.phidget_id
    heartbeat_period := c.heartbeat_period.toClient
    phidget_sample_period := c.phidget_sample_period.toClient
    max_noise := c.max_noise
    buffer_length := c.buffer_length }

/-- Device identity as used by the transaction layer of src/api_handler.py
(`device.model`, `device.serial_number`): a model tag plus a serial string.
The `Device` dataclass in src/menu.py is an older revision carrying an integer
`number`; the serial-string revision the handlers use is missing from src/, so
its shape is taken from its use sites and the spec (§3). -/
structure Device where
  model : Model
  serialNumber : String
deriving DecidableEq, Repr

/-- Directory entry document in the "devices" collection, from the
`FirestoreDeviceDocument.model_construct(model, serial_number, config)` call
and the `"model"` / `"serialNumber"` field filters in src/api_handler.py;
`address` is the optional field read and written by src/address_api_handler.py.
Firestore's generated config-document ids are modelled as natural-number keys. -/
structure DeviceDoc where
  model : Model
  serialNumber : String
  config : Nat
  address : Option String
deriving DecidableEq, Repr

/-- Embeds `FirestoreDeviceDocument.to_device`: the identity of a directory
entry. -/
def DeviceDoc.toDevice (d : DeviceDoc) : Device :=
  ⟨d.model, d.serialNumber⟩

/-- Document store state: the "devices" and "config" collections and the
generated-id counter. -/
structure Store where
  devices : List DeviceDoc
  configs : List (Nat × StoredConfig)
  nextId : Nat
deriving DecidableEq, Repr

/-- Failure raised by the transactions.  The first four constructors are the
`FirestoreError` raise sites (src/api_handler.py, src/address_api_handler.py),
distinguished in the source only by their message strings; the last constructor
is the pydantic `ValidationError` raised by `Config.model_validate` on a stored
configuration that fails validation. -/
inductive MiseError where
  | multipleDevices
  | noDocument
  | configNotFound
  | noAddress
  | invalidStoredConfig
deriving DecidableEq, Repr

/-- Embeds the two chained `FieldFilter` equality clauses on `"model"` and
`"serialNumber"` used by every resolver query. -/
def deviceMatches (device : Device) (d : DeviceDoc) : Bool :=
  d.model == device.model && d.serialNumber == device.serialNumber

/-- Embeds `db.collection(CONFIG_COLLECTION).document(ref).get` together with
the `exists` check: keyed lookup in the "config" collection. -/
def lookupConfig (store : Store) (ref : Nat) : Option StoredConfig :=
  (store.configs.find? (fun p => p.1 == ref)).map (fun p => p.2)

/-- Embeds `_get_transaction` of src/api_handler.py: resolve the directory
entry by exact (model, serialNumber), then dereference its config document in
the same transaction and validate it. -/
def getTransaction (store : Store) (device : Device) : Except MiseError Config :=
  let documents := store.devices.filter (deviceMatches device)
  if documents.length > 1 then Except.error MiseError.multipleDevices
  else
    match documents with
    | [] => Except.error MiseError.noDocument
    | doc :: _ =>
        match lookupConfig store doc.config with
        | none => Except.error MiseError.configNotFound
        | some stored =>
            match configOfStoreDict stored with
            | some cfg => Except.ok cfg
            | none => Except.error MiseError.invalidStoredConfig

/-- Embeds the status mapping of the `get` handler (src/api_handler.py): a
`FirestoreError` becomes HTTP 404 NOT_FOUND, a `ValueError` (which includes
pydantic validation failures) becomes 400 BAD_REQUEST, success is 200. -/
def getStatus (store : Store) (device : Device) : Nat :=
  match getTransaction store device with
  | Except.ok _ => 200
  | Except.error MiseError.invalidStoredConfig => 400
  | Except.error _ => 404

/-- Replace the value stored under a key, or append the binding when the key is
absent — the semantics of `transaction.set` on a keyed document reference. -/
def setAssoc : List (Nat × StoredConfig) → Nat → StoredConfig → List (Nat × StoredConfig)
  | [], k, v => [(k, v)]
  | (k', v') :: t, k, v =>
      if k' = k then (k, v) :: t else (k', v') :: setAssoc t k v

/-- Embeds `_put_transaction` of src/api_handler.py: resolve the directory
entry, then overwrite the config document it references with the store
serialization of the new configuration. -/
def putTransaction (store : Store) (device : Device) (newConfig : Config) :
    Except MiseError Store :=
  let documents := store.devices.filter (deviceMatches device)
  if documents.length > 1 then Except.error MiseError.multipleDevices
  else
    match documents with
    | [] => Except.error MiseError.noDocument
    | doc :: _ =>
        Except.ok { store with configs := setAssoc store.configs doc.config newConfig.toStoreDict }

/-- Embeds the base-serial derivation `f"\x7bnew_config.phidget_id\x7d-\x7bnew_config.load_cell_id\x7d"`
of `_post_transaction`. -/
def Config.baseSerial (c : Config) : String :=
  toString c.phidget_id ++ "-" ++ toString c.load_cell_id

/-- Embeds the collision probe's query: directory entries filtered by
`"serialNumber"` alone (no model clause). -/
def serialIsUsed (devs : List DeviceDoc) (s : String) : Bool :=
  !(devs.filter (fun d => d.serialNumber == s)).isEmpty

/-- Embeds the `while not serial_number_is_set` loop of `_post_transaction`:
probe suffixed candidates in increasing index order until one is unused.  The
Python loop carries no bound; here it is run with fuel, `none` marking
exhaustion (with fuel exceeding the store size the loop always finds a gap). -/
def probeSerial (devs : List DeviceDoc) (base : String) (index : Nat) : Nat → Option Nat
  | 0 => none
  | fuel + 1 =>
      if serialIsUsed devs (base ++ "-" ++ toString index)
      then probeSerial devs base (index + 1) fuel
      else some index

/-- Embeds the serial-selection phase of `_post_transaction`: the base serial
is kept when unused; otherwise suffixed candidates are probed in increasing
index order. -/
def chooseSerial (store : Store) (cfg : Config) : Option String :=
  if serialIsUsed store.devices cfg.baseSerial then
    (probeSerial store.devices cfg.baseSerial 0 (store.devices.length + 1)).map
      (fun i => cfg.baseSerial ++ "-" ++ toString i)
  else some cfg.baseSerial

/-- Embeds `_post_transaction` of src/api_handler.py: derive the base serial,
disambiguate it against the directory (by serial alone), then create a new
config document and a new directory entry referencing it, returning the new
entry. -/
def postTransaction (store : Store) (model : Model) (newConfig : Config) :
    Option (Store × DeviceDoc) :=
  match chooseSerial store newConfig with
  | none => none
  | some serial =>
      some ({ devices := store.devices ++ [⟨model, serial, store.nextId, none⟩],
              configs := store.configs ++ [(store.nextId, newConfig.toStoreDict)],
              nextId := store.nextId + 1 },
            ⟨model, serial, store.nextId, none⟩)

/-- Runs a finite sequence of creation transactions from a starting store,
collecting the created directory entries in order; `none` when any call fails. -/
def runCreates : Store → List (Model × Config) → Option (Store × List DeviceDoc)
  | store, [] => some (store, [])
  | store, (m, c) :: rest =>
      match postTransaction store m c with
      | none => none
      | some (store', doc) =>
          match runCreates store' rest with
          | none => none
          | some (finalStore, docs) => some (finalStore, doc :: docs)

/-- Embeds `_get_address_transaction` of src/address_api_handler.py: the
resolver query carries `limit(1)`; the address is returned only when the field
is present and truthy (a non-empty string). -/
def getAddressTransaction (store : Store) (device : Device) : Except MiseError String :=
  let documents := (store.devices.filter (deviceMatches device)).take 1
  if documents.length > 1 then Except.error MiseError.multipleDevices
  else
    match documents with
    | [] => Except.error MiseError.noDocument
    | doc :: _ =>
        match doc.address with
        | some a => if a = "" then Except.error MiseError.noAddress else Except.ok a
        | none => Except.error MiseError.noAddress

/-- Update the first list element satisfying the predicate — the semantics of
`transaction.update` applied to `documents[0].reference`, the first match of
the query in store order. -/
def updateFirstWhere (p : DeviceDoc → Bool) (f : DeviceDoc → DeviceDoc) :
    List DeviceDoc → List DeviceDoc
  | [] => []
  | d :: t => if p d then f d :: t else d :: updateFirstWhere p f t

/-- Embeds `_put_address_transaction` of src/address_api_handler.py: the
resolver query carries `limit(1)`; the first matching entry's `address` field
is set to the new address. -/
def putAddressTransaction (store : Store) (device : Device) (newAddress : String) :
    Except MiseError Store :=
  let documents := (store.devices.filter (deviceMatches device)).take 1
  if documents.length > 1 then Except.error MiseError.multipleDevices
  else
    match documents with
    | [] => Except.error MiseError.noDocument
    | _ :: _ =>
        Except.ok { store with
          devices := updateFirstWhere (deviceMatches device)
            (fun d => { d with address := some newAddress }) store.devices }

/-- Failure raised as `ValueError` by `path_to_device` (src/menu.py); each
constructor is one raise site, distinguished in the source by its message. -/
inductive PathError where
  | invalidFormat
  | invalidModel
  | invalidNumber
deriving DecidableEq, Repr

/-- Parsed device identity produced by `path_to_device` in src/menu.py (this
older revision carries an integer device number). -/
structure ParsedDevice where
  model : Model
  number : Int
deriving DecidableEq, Repr

/-- Embeds Python's `path.strip('/')`: remove leading and trailing slashes. -/
def stripSlashes (s : String) : String :=
  String.mk (((s.toList.dropWhile (fun c => c = '/')).reverse.dropWhile (fun c => c = '/')).reverse)

/-- Embeds Python's `str.split('/')`: split a character list at every slash,
keeping empty segments (`''.split('/') == ['']`). -/
def splitSlash : List Char → List (List Char)
  | [] => [[]]
  | c :: t =>
      if c = '/' then [] :: splitSlash t
      else
        match splitSlash t with
        | h :: rest => (c :: h) :: rest
        | [] => [[c]]

/-- Decimal digits to a natural number; `none` on an empty or non-digit list. -/
def digitsToNat? (l : List Char) : Option Nat :=
  if l ≠ [] ∧ l.all (fun c => c.isDigit) then
    some (l.foldl (fun n c => n * 10 + (c.toNat - 48)) 0)
  else none

/-- Embeds Python's `int(number_str)` on its core grammar — an optional sign
followed by decimal digits; `int`'s additional tolerance for surrounding
whitespace and underscore separators is not exercised by any claim. -/
def pyInt? (s : String) : Option Int :=
  match s.toList with
  | '-' :: rest => (digitsToNat? rest).map (fun n => -(n : Int))
  | '+' :: rest => (digitsToNat? rest).map (fun n => (n : Int))
  | l => (digitsToNat? l).map (fun n => (n : Int))

/-- Embeds `path_to_device` of src/menu.py: strip slashes, split on `/`,
require exactly two parts, a valid model tag, and an integer device number. -/
def path_to_device (path : String) : Except PathError ParsedDevice :=
  match (splitSlash (stripSlashes path).toList).map (fun l => String.mk l) with
  | [model_str, number_str] =>
      match Model.ofString? model_str with
      | none => Except.error PathError.invalidModel
      | some model =>
          match pyInt? number_str with
          | none => Except.error PathError.invalidNumber
          | some number => Except.ok ⟨model, number⟩
  | _ => Except.error PathError.invalidFormat

/-- Concrete configuration used by the scenario claims: hardware identifiers
67890 (phidget) and 12345 (load cell). -/
def cfg67890 : Config :=
  { gain := 1
    ingredient := "flour"
    load_cell_id := 12345
    location := "bin"
    offset := 0
    phidget_id := 67890
    heartbeat_period := ⟨15, 0⟩
    phidget_sample_period := ⟨0, 50000000⟩
    max_noise := 2
    buffer_length := 5 }

/-- Concrete identity used by counterexamples and witnesses. -/
def devX : Device :=
  ⟨Model.IchibuV1, "123"⟩

/-- Concrete directory entry matching `devX`. -/
def dupDoc : DeviceDoc :=
  ⟨Model.IchibuV1, "123", 0, none⟩

/-- Store holding two directory entries with the same (model, serial) pair. -/
def dupStore : Store :=
  ⟨[dupDoc, dupDoc], [], 1⟩

/-- Store with no directory entries. -/
def emptyStore : Store :=
  ⟨[], [], 0⟩

/-- Store holding one entry (of a different model) that already occupies the
base serial of `cfg67890`. -/
def collideStore : Store :=
  ⟨[⟨Model.LibraV0, "67890-12345", 0, none⟩], [], 1⟩

/-- Result store of creating an `IchibuV1` device with `cfg67890` against
`collideStore`. -/
def collideResultStore : Store :=
  ⟨[⟨Model.LibraV0, "67890-12345", 0, none⟩, ⟨Model.IchibuV1, "67890-12345-0", 1, none⟩],
   [(1, cfg67890.toStoreDict)], 2⟩

/-- Directory entry created for that collision scenario. -/
def collideDoc : DeviceDoc :=
  ⟨Model.IchibuV1, "67890-12345-0", 1, none⟩

/-- Two creation requests with identical hardware identifiers. -/
def twoReqs : List (Model × Config) :=
  [(Model.IchibuV1, cfg67890), (Model.IchibuV2, cfg67890)]

/-- Store resulting from running `twoReqs` on the empty store. -/
def twoStore : Store :=
  ⟨[⟨Model.IchibuV1, "67890-12345", 0, none⟩, ⟨Model.IchibuV2, "67890-12345-0", 1, none⟩],
   [(0, cfg67890.toStoreDict), (1, cfg67890.toStoreDict)], 2⟩

/-- Directory entries created by running `twoReqs` on the empty store. -/
def twoDocs : List DeviceDoc :=
  [⟨Model.IchibuV1, "67890-12345", 0, none⟩, ⟨Model.IchibuV2, "67890-12345-0", 1, none⟩]

theorem durationOfStoreSeconds_toStoreSeconds (d : Duration) (h : d.nanos < 1000000000) :
    durationOfStoreSeconds d.toStoreSeconds = some d := by
  unfold durationOfStoreSeconds Duration.toStoreSeconds
  have hnonneg : ¬ ((d.secs : Int) * 1000000000 + (d.nanos : Int) < 0 ∨ (1000000000 : Nat) = 0) := by
    push_neg
    constructor
    · positivity
    · omega
  rw [if_neg hnonneg]
  have htotal : ((d.secs : Int) * 1000000000 + (d.nanos : Int)).toNat = d.secs * 1000000000 + d.nanos := by
    omega
  simp only [htotal]
  congr 1
  have hcancel : (d.secs * 1000000000 + d.nanos) * 1000000000 / 1000000000 = d.secs * 1000000000 + d.nanos := by
    omega
  rw [hcancel]
  have hdiv : (d.secs * 1000000000 + d.nanos) / 1000000000 = d.secs := by omega
  have hmod : (d.secs * 1000000000 + d.nanos) % 1000000000 = d.nanos := by omega
  rw [hdiv, hmod]

theorem configOfStoreDict_toStoreDict (c : Config)
    (h1 : c.heartbeat_period.nanos < 1000000000)
    (h2 : c.phidget_sample_period.nanos < 1000000000) :
    configOfStoreDict c.toStoreDict = some c := by
  unfold configOfStoreDict Config.toStoreDict
  simp only [durationOfStoreSeconds_toStoreSeconds _ h1, durationOfStoreSeconds_toStoreSeconds _ h2]

theorem serialIsUsed_false_iff (devs : List DeviceDoc) (s : String) :
    serialIsUsed devs s = false ↔ ∀ d ∈ devs, d.serialNumber ≠ s := by
  simp [serialIsUsed, List.isEmpty_iff, List.filter_eq_nil_iff]

theorem serialIsUsed_true_iff (devs : List DeviceDoc) (s : String) :
    serialIsUsed devs s = true ↔ ∃ d ∈ devs, d.serialNumber = s := by
  rw [← not_iff_not]
  push_neg
  rw [← serialIsUsed_false_iff]
  cases h : serialIsUsed devs s <;> simp

theorem probeSerial_spec (devs : List DeviceDoc) (base : String) :
    ∀ fuel index i, probeSerial devs base index fuel = some i →
      index ≤ i ∧
      serialIsUsed devs (base ++ "-" ++ toString i) = false ∧
      ∀ j, index ≤ j → j < i → serialIsUsed devs (base ++ "-" ++ toString j) = true := by
  intro fuel
  induction fuel with
  | zero =>
      intro index i h
      simp [probeSerial] at h
  | succ n ih =>
      intro index i h
      unfold probeSerial at h
      by_cases hu : serialIsUsed devs (base ++ "-" ++ toString index) = true
      · rw [if_pos hu] at h
        obtain ⟨h1, h2, h3⟩ := ih (index + 1) i h
        refine ⟨by omega, h2, ?_⟩
        intro j hj1 hj2
        rcases Nat.eq_or_lt_of_le hj1 with heq | hlt
        · exact heq ▸ hu
        · exact h3 j (by omega) hj2
      · rw [if_neg hu] at h
        injection h with h
        subst h
        exact ⟨Nat.le_refl _, by simpa using hu, fun j hj1 hj2 => by omega⟩

theorem chooseSerial_spec (store : Store) (cfg : Config) (serial : String)
    (h : chooseSerial store cfg = some serial) :
    serialIsUsed store.devices serial = false ∧
    (serialIsUsed store.devices cfg.baseSerial = false → serial = cfg.baseSerial) ∧
    (serialIsUsed store.devices cfg.baseSerial = true →
      ∃ i : Nat, serial = cfg.baseSerial ++ "-" ++ toString i ∧
        (∀ j < i, serialIsUsed store.devices (cfg.baseSerial ++ "-" ++ toString j) = true)) := by
  unfold chooseSerial at h
  by_cases hb : serialIsUsed store.devices cfg.baseSerial = true
  · rw [if_pos hb] at h
    cases hp : probeSerial store.devices cfg.baseSerial 0 (store.devices.length + 1) with
    | none => rw [hp] at h; simp at h
    | some i =>
        rw [hp] at h
        simp only [Option.map_some'] at h
        injection h with h
        subst h
        obtain ⟨_, hfree, hbusy⟩ := probeSerial_spec store.devices cfg.baseSerial _ 0 i hp
        refine ⟨hfree, fun hc => by rw [hc] at hb; exact absurd hb (by simp), fun _ => ⟨i, rfl, ?_⟩⟩
        intro j hj
        exact hbusy j (Nat.zero_le j) hj
  · rw [if_neg hb] at h
    injection h with h
    subst h
    have hb' : serialIsUsed store.devices cfg.baseSerial = false := by
      cases hx : serialIsUsed store.devices cfg.baseSerial
      · rfl
      · exact absurd hx hb
    exact ⟨hb', fun _ => rfl, fun hc => absurd hc hb⟩

theorem postTransaction_eq (store : Store) (model : Model) (cfg : Config)
    (store' : Store) (doc : DeviceDoc)
    (h : postTransaction store model cfg = some (store', doc)) :
    doc.model = model ∧
    doc.config = store.nextId ∧
    doc.address = none ∧
    store'.devices = store.devices ++ [doc] ∧
    store'.configs = store.configs ++ [(store.nextId, cfg.toStoreDict)] ∧
    store'.nextId = store.nextId + 1 ∧
    chooseSerial store cfg = some doc.serialNumber := by
  unfold postTransaction at h
  cases hs : chooseSerial store cfg with
  | none => rw [hs] at h; simp at h
  | some serial =>
      rw [hs] at h
      injection h with h
      obtain ⟨h1, h2⟩ := Prod.mk.inj h
      subst h2
      subst h1
      exact ⟨rfl, rfl, rfl, rfl, rfl, rfl, rfl⟩

theorem lookupConfig_post_mono {store store' : Store} {m : Model} {c : Config}
    {doc : DeviceDoc} {k : Nat} {v : StoredConfig}
    (h : lookupConfig store k = some v)
    (hp : postTransaction store m c = some (store', doc)) :
    lookupConfig store' k = some v := by
  obtain ⟨-, -, -, -, hconf, -, -⟩ := postTransaction_eq store m c store' doc hp
  unfold lookupConfig at h ⊢
  obtain ⟨pair, hpair, hv⟩ := Option.map_eq_some'.mp h
  rw [hconf, List.find?_append, hpair]
  simp [hv]

theorem lookupConfig_post_new {store store' : Store} {m : Model} {c : Config}
    {doc : DeviceDoc}
    (hb : ∀ p ∈ store.configs, p.1 < store.nextId)
    (hp : postTransaction store m c = some (store', doc)) :
    lookupConfig store' doc.config = some c.toStoreDict := by
  obtain ⟨-, hcfg, -, -, hconf, -, -⟩ := postTransaction_eq store m c store' doc hp
  unfold lookupConfig
  rw [hconf, hcfg, List.find?_append]
  have hnone : store.configs.find? (fun p => p.1 == store.nextId) = none := by
    rw [List.find?_eq_none]
    intro x hx
    have := hb x hx
    simp only [beq_iff_eq]
    omega
  rw [hnone]
  simp

/-- Store well-formedness maintained by creation: serials are pairwise distinct
and every config key is below the id counter. -/
def storeWF (store : Store) : Prop :=
  List.Pairwise (fun a b => a.serialNumber ≠ b.serialNumber) store.devices ∧
  ∀ p ∈ store.configs, p.1 < store.nextId

theorem postTransaction_preserves_WF {store store' : Store} {m : Model} {c : Config}
    {doc : DeviceDoc}
    (hwf : storeWF store)
    (hp : postTransaction store m c = some (store', doc)) :
    storeWF store' := by
  obtain ⟨-, -, -, hdev, hconf, hnext, hser⟩ := postTransaction_eq store m c store' doc hp
  have hfree := (chooseSerial_spec store c doc.serialNumber hser).1
  constructor
  · rw [hdev, List.pairwise_append]
    refine ⟨hwf.1, by simp, ?_⟩
    intro a ha b hb
    have hb' : b = doc := by simpa using hb
    rw [hb']
    exact (serialIsUsed_false_iff _ _).mp hfree a ha
  · rw [hconf, hnext]
    intro p hmem
    rcases List.mem_append.mp hmem with hmem | hmem
    · exact Nat.lt_trans (hwf.2 p hmem) (Nat.lt_succ_self _)
    · have : p = (store.nextId, c.toStoreDict) := by simpa using hmem
      subst this
      exact Nat.lt_succ_self _

theorem runCreates_lookup_mono :
    ∀ (reqs : List (Model × Config)) (store store' : Store) (docs : List DeviceDoc)
      (k : Nat) (v : StoredConfig),
      lookupConfig store k = some v →
      runCreates store reqs = some (store', docs) →
      lookupConfig store' k = some v := by
  intro reqs
  induction reqs with
  | nil =>
      intro store store' docs k v hl h
      unfold runCreates at h
      injection h with h
      obtain ⟨h1, -⟩ := Prod.mk.inj h
      exact h1 ▸ hl
  | cons req rest ih =>
      intro store store' docs k v hl h
      obtain ⟨m, c⟩ := req
      cases hp : postTransaction store m c with
      | none => simp [runCreates, hp] at h
      | some res =>
          obtain ⟨store1, doc⟩ := res
          cases hr : runCreates store1 rest with
          | none => simp [runCreates, hp, hr] at h
          | some res2 =>
              obtain ⟨store2, docs2⟩ := res2
              simp only [runCreates, hp, hr, Option.some.injEq, Prod.mk.injEq] at h
              obtain ⟨h1, -⟩ := h
              subst h1
              exact ih store1 store2 docs2 k v (lookupConfig_post_mono hl hp) hr

theorem runCreates_spec :
    ∀ (reqs : List (Model × Config)) (store store' : Store) (docs : List DeviceDoc),
      storeWF store →
      runCreates store reqs = some (store', docs) →
      storeWF store' ∧ docs.length = reqs.length ∧
      ∀ i (h1 : i < docs.length) (h2 : i < reqs.length),
        lookupConfig store' (docs.get ⟨i, h1⟩).config =
          some ((reqs.get ⟨i, h2⟩).2.toStoreDict) := by
  intro reqs
  induction reqs with
  | nil =>
      intro store store' docs hwf h
      unfold runCreates at h
      injection h with h
      obtain ⟨h1, h2⟩ := Prod.mk.inj h
      subst h1
      subst h2
      exact ⟨hwf, rfl, fun i h1 h2 => absurd h2 (by simp)⟩
  | cons req rest ih =>
      intro store store' docs hwf h
      obtain ⟨m, c⟩ := req
      cases hp : postTransaction store m c with
      | none => simp [runCreates, hp] at h
      | some res =>
          obtain ⟨store1, doc⟩ := res
          cases hr : runCreates store1 rest with
          | none => simp [runCreates, hp, hr] at h
          | some res2 =>
              obtain ⟨store2, docs2⟩ := res2
              simp only [runCreates, hp, hr, Option.some.injEq, Prod.mk.injEq] at h
              obtain ⟨h1, h2⟩ := h
              subst h1
              subst h2
              have hwf1 := postTransaction_preserves_WF hwf hp
              obtain ⟨hwf2, hlen, hlook⟩ := ih store1 store2 docs2 hwf1 hr
              refine ⟨hwf2, by simp [hlen], ?_⟩
              intro i h1 h2
              cases i with
              | zero =>
                  have hnew := lookupConfig_post_new hwf.2 hp
                  simpa using runCreates_lookup_mono rest store1 store2 docs2 _ _ hnew hr
              | succ j =>
                  simpa using hlook j (by simpa using h1) (by simpa using h2)

/-- Claim C3, counterexample: a multiple-match failure of `getConfiguration` is
not surfaced distinctly from `NotFound` — both are raised as the same
`FirestoreError` exception class (differing only in message) and the handler
maps both onto the same NOT_FOUND (404) response status, a 4xx status rather
than a server-side-defect (5xx) class. -/
theorem claim_C3_counterexample :
    getTransaction dupStore devX = Except.error MiseError.multipleDevices ∧
    getTransaction emptyStore devX = Except.error MiseError.noDocument ∧
    getStatus dupStore devX = 404 ∧
    getStatus dupStore devX = getStatus emptyStore devX := by
  exact ⟨rfl, rfl, rfl, rfl⟩

/-- Claim C3, amended: for every identity whose exact (model, serial) query
matches more than one directory entry, `getConfiguration` raises the
multiple-devices error — a constructor distinct from the no-document error —
and never returns the configuration of an arbitrarily picked entry; the
handler surfaces it with status 404, the same not-found status used for
`NotFound`, so the distinction is carried only by the error message. -/
theorem claim_C3 (store : Store) (device : Device)
    (h : 1 < (store.devices.filter (deviceMatches device)).length) :
    getTransaction store device = Except.error MiseError.multipleDevices ∧
    MiseError.multipleDevices ≠ MiseError.noDocument ∧
    (∀ c : Config, getTransaction store device ≠ Except.ok c) ∧
    getStatus store device = 404 := by
  have hget : getTransaction store device = Except.error MiseError.multipleDevices := by
    simp only [getTransaction]
    rw [if_pos h]
  refine ⟨hget, by simp, ?_, ?_⟩
  · intro c hc
    rw [hget] at hc
    exact Except.noConfusion hc
  · simp only [getStatus, hget]

/-- Witness for C3 at a concrete two-entry store. -/
theorem claim_C3_witness :
    getTransaction dupStore devX = Except.error MiseError.multipleDevices ∧
    MiseError.multipleDevices ≠ MiseError.noDocument ∧
    (∀ c : Config, getTransaction dupStore devX ≠ Except.ok c) ∧
    getStatus dupStore devX = 404 :=
  claim_C3 dupStore devX (by decide)

/-- Claim C5: for every identity resolving to exactly one directory entry whose
config reference names no existing configuration document, `getConfiguration`
fails with the dangling-reference error (`Config document with ID ... not
found`, the spec's `IntegrityViolation` class) and never returns any
configuration. -/
theorem claim_C5 (store : Store) (device : Device) (d : DeviceDoc)
    (hf : store.devices.filter (deviceMatches device) = [d])
    (hc : lookupConfig store d.config = none) :
    getTransaction store device = Except.error MiseError.configNotFound ∧
    ∀ c : Config, getTransaction store device ≠ Except.ok c := by
  have hget : getTransaction store device = Except.error MiseError.configNotFound := by
    simp only [getTransaction, hf, hc]
    rfl
  refine ⟨hget, ?_⟩
  intro c hcc
  rw [hget] at hcc
  exact Except.noConfusion hcc

/-- Witness for C5 at a concrete store holding one entry and no configs. -/
theorem claim_C5_witness :
    getTransaction ⟨[dupDoc], [], 1⟩ devX = Except.error MiseError.configNotFound ∧
    ∀ c : Config, getTransaction ⟨[dupDoc], [], 1⟩ devX ≠ Except.ok c :=
  claim_C5 ⟨[dupDoc], [], 1⟩ devX dupDoc (by decide) (by decide)

theorem putAddressTransaction_eq (store : Store) (device : Device) (addr : String) :
    (store.devices.filter (deviceMatches device) = [] →
      putAddressTransaction store device addr = Except.error MiseError.noDocument) ∧
    (∀ d rest, store.devices.filter (deviceMatches device) = d :: rest →
      putAddressTransaction store device addr =
        Except.ok { store with devices := (updateFirstWhere (deviceMatches device)
          (fun x => { x with address := some addr }) store.devices) }) := by
  constructor
  · intro hf
    simp only [putAddressTransaction, hf]
    rfl
  · intro d rest hf
    simp only [putAddressTransaction, hf]
    rfl

theorem filter_updateFirstWhere (p : DeviceDoc → Bool) (f : DeviceDoc → DeviceDoc)
    (hpf : ∀ x, p (f x) = p x) :
    ∀ (l : List DeviceDoc) (d : DeviceDoc) (rest : List DeviceDoc),
      l.filter p = d :: rest →
      (updateFirstWhere p f l).filter p = f d :: rest := by
  intro l
  induction l with
  | nil => intro d rest hf; simp at hf
  | cons hd t ih =>
      intro d rest hf
      by_cases h : p hd = true
      · rw [List.filter_cons_of_pos h] at hf
        injection hf with h1 h2
        subst h1
        subst h2
        simp [updateFirstWhere, h, List.filter_cons, hpf]
      · have h' : p hd = false := by
          cases hx : p hd
          · rfl
          · exact absurd hx h
        rw [List.filter_cons_of_neg (by simp [h'])] at hf
        simp [updateFirstWhere, h', List.filter_cons, ih d rest hf]

/-- Claim C8, counterexample: with two directory entries sharing the same
(model, serial), `putAddress` does not fail with an integrity error — its
resolver query carries `limit(1)`, so the transaction sees a single document
and succeeds, updating the first matching entry. -/
theorem claim_C8_counterexample :
    1 < (dupStore.devices.filter (deviceMatches devX)).length ∧
    putAddressTransaction dupStore devX "10.0.0.1" =
      Except.ok ⟨[⟨Model.IchibuV1, "123", 0, some "10.0.0.1"⟩, dupDoc], [], 1⟩ := by
  exact ⟨by decide, rfl⟩

/-- Claim C8, amended: `updateAddress` re-runs resolution inside its own
transaction, but its query carries `limit(1)`: with no matching entry it fails
with the no-document error, and with one or more matching entries it succeeds,
setting the address of the first matching entry — the multiple-match integrity
failure of the §4.3 resolver is unreachable, so an ambiguous identity updates
an arbitrarily chosen (first) entry instead of failing. -/
theorem claim_C8 (store : Store) (device : Device) (addr : String) :
    (store.devices.filter (deviceMatches device) = [] →
      putAddressTransaction store device addr = Except.error MiseError.noDocument) ∧
    (∀ d rest, store.devices.filter (deviceMatches device) = d :: rest →
      putAddressTransaction store device addr =
        Except.ok { store with devices := (updateFirstWhere (deviceMatches device)
          (fun x => { x with address := some addr }) store.devices) }) :=
  putAddressTransaction_eq store device addr

/-- Witness for C8 at a concrete ambiguous store: the update succeeds on the
first of two duplicate entries. -/
theorem claim_C8_witness :
    putAddressTransaction dupStore devX "10.0.0.2" =
      Except.ok { dupStore with devices := (updateFirstWhere (deviceMatches devX)
        (fun x => { x with address := some "10.0.0.2" }) dupStore.devices) } :=
  (claim_C8 dupStore devX "10.0.0.2").2 dupDoc [dupDoc] (by decide)

/-- Claim C10: `putAddress` accepts and stores any string — the empty string
included — whenever the identity resolves; but `getAddress` returns a stored
address only when it is present and non-empty (Python's truthiness check), so
an entry whose address is the empty string fails with the no-configured-address
error, and a `getAddress` immediately after `putAddress(identity, "")` does not
return `""`. -/
theorem claim_C10 (store : Store) (device : Device) :
    (∀ d rest, store.devices.filter (deviceMatches device) = d :: rest →
      d.address = some "" →
      getAddressTransaction store device = Except.error MiseError.noAddress) ∧
    (∀ addr : String, store.devices.filter (deviceMatches device) ≠ [] →
      ∃ store', putAddressTransaction store device addr = Except.ok store') ∧
    (∀ store', putAddressTransaction store device "" = Except.ok store' →
      getAddressTransaction store' device = Except.error MiseError.noAddress) := by
  refine ⟨?_, ?_, ?_⟩
  · intro d rest hf ha
    have ht : (store.devices.filter (deviceMatches device)).take 1 = [d] := by
      rw [hf]
      rfl
    simp only [getAddressTransaction, ht, ha]
    rfl
  · intro addr hne
    cases hf : store.devices.filter (deviceMatches device) with
    | nil => exact absurd hf hne
    | cons d rest =>
        exact ⟨_, (putAddressTransaction_eq store device addr).2 d rest hf⟩
  · intro store' hput
    cases hf : store.devices.filter (deviceMatches device) with
    | nil =>
        rw [(putAddressTransaction_eq store device "").1 hf] at hput
        exact Except.noConfusion hput
    | cons d rest =>
        rw [(putAddressTransaction_eq store device "").2 d rest hf] at hput
        injection hput with hput
        subst hput
        have hfd := filter_updateFirstWhere (deviceMatches device)
          (fun x => { x with address := some "" }) (fun x => rfl) store.devices d rest hf
        have ht : ((updateFirstWhere (deviceMatches device)
            (fun x => { x with address := some "" }) store.devices).filter
              (deviceMatches device)).take 1 = [{ d with address := some "" }] := by
          rw [hfd]
          rfl
        simp only [getAddressTransaction, ht]
        rfl

/-- Witness for C10: storing the empty address on a one-entry store, then
reading it back, yields the no-configured-address error. -/
theorem claim_C10_witness :
    getAddressTransaction ⟨[⟨Model.IchibuV1, "123", 0, some ""⟩], [], 1⟩ devX =
      Except.error MiseError.noAddress :=
  (claim_C10 ⟨[⟨Model.IchibuV1, "123", 0, some "10.9.8.7"⟩], [], 1⟩ devX).2.2
    ⟨[⟨Model.IchibuV1, "123", 0, some ""⟩], [], 1⟩ rfl

theorem append_dash_ne (base t : String) : base ++ "-" ++ t ≠ base := by
  intro hcontra
  have hlen := congrArg String.length hcontra
  have hdash : ("-" : String).length = 1 := rfl
  rw [String.length_append, String.length_append, hdash] at hlen
  omega

/-- Claim C1: the allocated serial is the base serial
`"\x7bphidget_id\x7d-\x7bload_cell_id\x7d"` when unused, and otherwise the
first unused candidate among the zero-based suffixed forms probed in
increasing order; in particular two creations with phidget id 67890 and load
cell id 12345 yield `"67890-12345"` then `"67890-12345-0"`. -/
theorem claim_C1 :
    (∀ (store : Store) (model : Model) (cfg : Config) (store' : Store) (doc : DeviceDoc),
      postTransaction store model cfg = some (store', doc) →
      ((∀ d ∈ store.devices, d.serialNumber ≠ cfg.baseSerial) →
        doc.serialNumber = cfg.baseSerial) ∧
      ((∃ d ∈ store.devices, d.serialNumber = cfg.baseSerial) →
        ∃ i : Nat, doc.serialNumber = cfg.baseSerial ++ "-" ++ toString i ∧
          (∀ d ∈ store.devices, d.serialNumber ≠ cfg.baseSerial ++ "-" ++ toString i) ∧
          (∀ j < i, ∃ d ∈ store.devices, d.serialNumber = cfg.baseSerial ++ "-" ++ toString j))) ∧
    (runCreates emptyStore [(Model.IchibuV1, cfg67890), (Model.IchibuV1, cfg67890)]).map
        (fun p => p.2.map (fun d => d.serialNumber)) = some ["67890-12345", "67890-12345-0"] := by
  constructor
  · intro store model cfg store' doc h
    obtain ⟨-, -, -, -, -, -, hser⟩ := postTransaction_eq store model cfg store' doc h
    obtain ⟨hfree, hbase, hsuffix⟩ := chooseSerial_spec store cfg doc.serialNumber hser
    constructor
    · intro hnone
      exact hbase ((serialIsUsed_false_iff _ _).mpr hnone)
    · intro hsome
      obtain ⟨i, hi, hbusy⟩ := hsuffix ((serialIsUsed_true_iff _ _).mpr hsome)
      refine ⟨i, hi, ?_, ?_⟩
      · intro d hd
        rw [← hi]
        exact (serialIsUsed_false_iff _ _).mp hfree d hd
      · intro j hj
        exact (serialIsUsed_true_iff _ _).mp (hbusy j hj)
  · decide

/-- Witness for C1: against a store whose only entry (of another model)
occupies the base serial, the allocation lands on the first suffixed form. -/
theorem claim_C1_witness :
    ∃ i : Nat, collideDoc.serialNumber = cfg67890.baseSerial ++ "-" ++ toString i ∧
      (∀ d ∈ collideStore.devices,
        d.serialNumber ≠ cfg67890.baseSerial ++ "-" ++ toString i) ∧
      (∀ j < i, ∃ d ∈ collideStore.devices,
        d.serialNumber = cfg67890.baseSerial ++ "-" ++ toString j) :=
  (claim_C1.1 collideStore Model.IchibuV1 cfg67890 collideResultStore collideDoc
    (by decide)).2 (by decide)

/-- Claim C4: the collision probe queries by serial alone — an existing entry
of any model whose serial equals the base serial forces the newly created
device (of any, possibly different, model) onto a suffixed serial. -/
theorem claim_C4 (store : Store) (model : Model) (cfg : Config)
    (store' : Store) (doc : DeviceDoc)
    (h : postTransaction store model cfg = some (store', doc))
    (d : DeviceDoc) (hd : d ∈ store.devices) (hds : d.serialNumber = cfg.baseSerial) :
    doc.serialNumber ≠ cfg.baseSerial ∧
    ∃ i : Nat, doc.serialNumber = cfg.baseSerial ++ "-" ++ toString i := by
  obtain ⟨-, -, -, -, -, -, hser⟩ := postTransaction_eq store model cfg store' doc h
  obtain ⟨-, -, hsuffix⟩ := chooseSerial_spec store cfg doc.serialNumber hser
  have hused : serialIsUsed store.devices cfg.baseSerial = true :=
    (serialIsUsed_true_iff _ _).mpr ⟨d, hd, hds⟩
  obtain ⟨i, hi, -⟩ := hsuffix hused
  exact ⟨hi ▸ append_dash_ne cfg.baseSerial (toString i), i, hi⟩

/-- Witness for C4: an entry of model `LibraV0` holding the base serial forces
an `IchibuV1` creation onto `"67890-12345-0"`. -/
theorem claim_C4_witness :
    collideDoc.serialNumber ≠ cfg67890.baseSerial ∧
    ∃ i : Nat, collideDoc.serialNumber = cfg67890.baseSerial ++ "-" ++ toString i :=
  claim_C4 collideStore Model.IchibuV1 cfg67890 collideResultStore collideDoc (by decide)
    ⟨Model.LibraV0, "67890-12345", 0, none⟩ (by decide) (by decide)

/-- Claim C2: after any finite sequence of successful creations from a store
with no entries, no two directory entries share a (model, serial) pair, and
each created entry's config reference resolves, in the final store, to the
configuration record created in the same transaction. -/
theorem claim_C2 (reqs : List (Model × Config)) (store' : Store) (docs : List DeviceDoc)
    (h : runCreates emptyStore reqs = some (store', docs)) :
    List.Pairwise
      (fun a b => ¬ (a.model = b.model ∧ a.serialNumber = b.serialNumber)) store'.devices ∧
    docs.length = reqs.length ∧
    ∀ i (h1 : i < docs.length) (h2 : i < reqs.length),
      lookupConfig store' ((docs.get ⟨i, h1⟩).config) =
        some ((reqs.get ⟨i, h2⟩).2.toStoreDict) := by
  have hwf0 : storeWF emptyStore := by
    constructor
    · exact List.Pairwise.nil
    · intro p hp
      simp [emptyStore] at hp
  obtain ⟨hwf, hlen, hlook⟩ := runCreates_spec reqs emptyStore store' docs hwf0 h
  refine ⟨?_, hlen, hlook⟩
  exact List.Pairwise.imp (fun hne hand => hne hand.2) hwf.1

/-- Witness for C2: two creations with identical hardware identifiers from the
empty store produce distinct (model, serial) pairs and resolvable config
references. -/
theorem claim_C2_witness :
    List.Pairwise
      (fun a b => ¬ (a.model = b.model ∧ a.serialNumber = b.serialNumber)) twoStore.devices ∧
    twoDocs.length = twoReqs.length ∧
    ∀ i (h1 : i < twoDocs.length) (h2 : i < twoReqs.length),
      lookupConfig twoStore ((twoDocs.get ⟨i, h1⟩).config) =
        some ((twoReqs.get ⟨i, h2⟩).2.toStoreDict) :=
  claim_C2 twoReqs twoStore twoDocs (by decide)

theorem find?_setAssoc :
    ∀ (l : List (Nat × StoredConfig)) (k : Nat) (v : StoredConfig),
      (setAssoc l k v).find? (fun p => p.1 == k) = some (k, v) := by
  intro l k v
  induction l with
  | nil => simp [setAssoc]
  | cons hd t ih =>
      obtain ⟨k', v'⟩ := hd
      by_cases h : k' = k
      · subst h
        simp [setAssoc]
      · simp [setAssoc, h, ih]

/-- Claim C6: for an identity resolving to exactly one directory entry and a
valid configuration, `getConfiguration` right after `putConfiguration` returns
the same configuration exactly — the duration fields surviving the store's
seconds encoding on the way in and the structured client encoding on the way
out. -/
theorem claim_C6 (store : Store) (device : Device) (C : Config) (d : DeviceDoc)
    (hf : store.devices.filter (deviceMatches device) = [d])
    (h1 : C.heartbeat_period.nanos < 1000000000)
    (h2 : C.phidget_sample_period.nanos < 1000000000) :
    ∃ store',
      putTransaction store device C = Except.ok store' ∧
      getTransaction store' device = Except.ok C ∧
      (getTransaction store' device).map Config.toClientDict =
        Except.ok C.toClientDict := by
  have hput : putTransaction store device C =
      Except.ok { store with configs := setAssoc store.configs d.config C.toStoreDict } := by
    simp only [putTransaction, hf]
    rfl
  refine ⟨_, hput, ?_, ?_⟩
  · have hlook : lookupConfig
        { store with configs := setAssoc store.configs d.config C.toStoreDict }
        d.config = some C.toStoreDict := by
      unfold lookupConfig
      simp [find?_setAssoc]
    simp only [getTransaction, hf, hlook, configOfStoreDict_toStoreDict C h1 h2]
    rfl
  · have hlook : lookupConfig
        { store with configs := setAssoc store.configs d.config C.toStoreDict }
        d.config = some C.toStoreDict := by
      unfold lookupConfig
      simp [find?_setAssoc]
    simp only [getTransaction, hf, hlook, configOfStoreDict_toStoreDict C h1 h2]
    rfl

/-- Witness for C6 at a one-entry store and the concrete configuration. -/
theorem claim_C6_witness :
    ∃ store',
      putTransaction ⟨[dupDoc], [], 1⟩ devX cfg67890 = Except.ok store' ∧
      getTransaction store' devX = Except.ok cfg67890 ∧
      (getTransaction store' devX).map Config.toClientDict =
        Except.ok cfg67890.toClientDict :=
  claim_C6 ⟨[dupDoc], [], 1⟩ devX cfg67890 dupDoc (by decide) (by decide) (by decide)

/-- Claim C7, counterexample: the serial segment is not accepted as an opaque
string — `path_to_device` in src/menu.py additionally requires it to parse as
an integer, so a well-formed path with a valid model and a non-numeric second
segment is rejected. -/
theorem claim_C7_counterexample :
    path_to_device "/IchibuV1/abc" = Except.error PathError.invalidNumber := rfl

/-- Claim C7, amended: identity parsing applies its rules in order — a token
that does not split into exactly two segments fails with the invalid-format
error; a first segment outside the closed model enumeration fails with the
invalid-model error; and the second segment must additionally parse as an
integer, failing with the invalid-device-number error otherwise (it is not
accepted as an opaque serial string). -/
theorem claim_C7 (path : String) :
    (((splitSlash (stripSlashes path).toList).map (fun l => String.mk l)).length ≠ 2 →
      path_to_device path = Except.error PathError.invalidFormat) ∧
    (∀ m s, (splitSlash (stripSlashes path).toList).map (fun l => String.mk l) = [m, s] →
      Model.ofString? m = none →
      path_to_device path = Except.error PathError.invalidModel) ∧
    (∀ m s model, (splitSlash (stripSlashes path).toList).map (fun l => String.mk l) = [m, s] →
      Model.ofString? m = some model → pyInt? s = none →
      path_to_device path = Except.error PathError.invalidNumber) ∧
    (∀ m s model n, (splitSlash (stripSlashes path).toList).map (fun l => String.mk l) = [m, s] →
      Model.ofString? m = some model → pyInt? s = some n →
      path_to_device path = Except.ok ⟨model, n⟩) := by
  refine ⟨?_, ?_, ?_, ?_⟩
  · intro hne
    cases hp : (splitSlash (stripSlashes path).toList).map (fun l => String.mk l) with
    | nil => simp only [path_to_device, hp]
    | cons a t =>
        cases t with
        | nil => simp only [path_to_device, hp]
        | cons b t2 =>
            cases t2 with
            | nil => exact absurd (by rw [hp]; rfl) hne
            | cons c t3 => simp only [path_to_device, hp]
  · intro m s hp hm
    simp only [path_to_device, hp, hm]
  · intro m s model hp hm hn
    simp only [path_to_device, hp, hm, hn]
  · intro m s model n hp hm hn
    simp only [path_to_device, hp, hm, hn]

/-- Witness for C7 at the concrete path of the counterexample. -/
theorem claim_C7_witness :
    path_to_device "/LibraV0/x7" = Except.error PathError.invalidNumber :=
  (claim_C7 "/LibraV0/x7").2.2.1 "LibraV0" "x7" Model.LibraV0 (by decide) (by decide) (by decide)

/-- Claim C9: for all non-negative (seconds, nanos) with nanos below 10^9,
converting to the internal representation and back to the structured client
encoding is the identity, and converting to the store's seconds encoding and
back recovers the duration exactly — in particular to within sub-microsecond
tolerance. -/
theorem claim_C9 (s n : Nat) (h : n < 1000000000) :
    (durationOfClient ⟨s, n⟩).toClient = ClientDuration.mk s n ∧
    durationOfStoreSeconds ((durationOfClient ⟨s, n⟩).toStoreSeconds) =
      some (durationOfClient ⟨s, n⟩) ∧
    ∀ d', durationOfStoreSeconds ((durationOfClient ⟨s, n⟩).toStoreSeconds) = some d' →
      Nat.dist d'.totalNanos (durationOfClient ⟨s, n⟩).totalNanos < 1000 := by
  have hrt : durationOfStoreSeconds ((durationOfClient ⟨s, n⟩).toStoreSeconds) =
      some (durationOfClient ⟨s, n⟩) :=
    durationOfStoreSeconds_toStoreSeconds ⟨s, n⟩ h
  refine ⟨rfl, hrt, ?_⟩
  intro d' hd'
  rw [hrt] at hd'
  injection hd' with hd'
  rw [← hd', Nat.dist_self]
  omega

/-- Witness for C9 at a concrete (seconds, nanos) pair. -/
theorem claim_C9_witness :
    durationOfStoreSeconds ((durationOfClient ⟨30, 123456789⟩).toStoreSeconds) =
      some (durationOfClient ⟨30, 123456789⟩) :=
  (claim_C9 30 123456789 (by decide)).2.1

end Mise
